import Mathlib

/-
  Verification development for the ed_localization SLAM plugin.

  The repository contains the controller (SLAMPlugin::process in unnamed/part_000
  and its header src/slam/slam_plugin.h).  The particle-filter member objects
  (odom_model_, laser_model_, particle_filter_) are declared and called here but
  their implementations are not part of the repository snapshot; the controller
  is therefore embedded as a function parameterized over those operations
  (bundled in `Models`), and where a claim depends on the behaviour of a missing
  operation, a definition modelled from the specification is supplied and marked
  as such in its doc comment.

  Machine reals of the C++ source are modelled by the rationals: every quantity
  the controller itself manipulates (transform entries, weights) is exact
  arithmetic, and the missing stage semantics are opaque parameters, so the
  control-flow claims are unaffected by the change of number type.  The one
  place the spec speaks about genuine trigonometry (the weighted circular mean,
  claim C7) is modelled separately over the real numbers.
-/

/-- Two dimensional vector, mirroring geo::Vec2. -/
structure Vec2 where
  x : ℚ
  y : ℚ
deriving DecidableEq, Repr

/-- Two by two matrix, mirroring geo::Mat2 (row major: xx xy / yx yy). -/
structure Mat2 where
  xx : ℚ
  xy : ℚ
  yx : ℚ
  yy : ℚ
deriving DecidableEq, Repr

/-- Planar rigid transform, mirroring geo::Transform2: rotation matrix plus translation. -/
structure Transform2 where
  R : Mat2
  t : Vec2
deriving DecidableEq, Repr

/-- The identity planar transform, mirroring geo::Transform2::identity(). -/
def Transform2.identity : Transform2 :=
  { R := { xx := 1, xy := 0, yx := 0, yy := 1 }, t := { x := 0, y := 0 } }

/-- Three dimensional vector, mirroring geo::Vector3. -/
structure Vec3 where
  x : ℚ
  y : ℚ
  z : ℚ
deriving DecidableEq, Repr

/-- Three by three matrix, mirroring geo::Matrix3 (row major). -/
structure Mat3 where
  xx : ℚ
  xy : ℚ
  xz : ℚ
  yx : ℚ
  yy : ℚ
  yz : ℚ
  zx : ℚ
  zy : ℚ
  zz : ℚ
deriving DecidableEq, Repr

/-- Transpose of a 3x3 matrix. -/
def Mat3.transpose (m : Mat3) : Mat3 :=
  { xx := m.xx, xy := m.yx, xz := m.zx,
    yx := m.xy, yy := m.yy, yz := m.zy,
    zx := m.xz, zy := m.yz, zz := m.zz }

/-- Matrix-vector product for 3x3 matrices. -/
def Mat3.mulVec (m : Mat3) (v : Vec3) : Vec3 :=
  { x := m.xx * v.x + m.xy * v.y + m.xz * v.z,
    y := m.yx * v.x + m.yy * v.y + m.yz * v.z,
    z := m.zx * v.x + m.zy * v.y + m.zz * v.z }

/-- Matrix-matrix product for 3x3 matrices. -/
def Mat3.mul (a b : Mat3) : Mat3 :=
  { xx := a.xx * b.xx + a.xy * b.yx + a.xz * b.zx,
    xy := a.xx * b.xy + a.xy * b.yy + a.xz * b.zy,
    xz := a.xx * b.xz + a.xy * b.yz + a.xz * b.zz,
    yx := a.yx * b.xx + a.yy * b.yx + a.yz * b.zx,
    yy := a.yx * b.xy + a.yy * b.yy + a.yz * b.zy,
    yz := a.yx * b.xz + a.yy * b.yz + a.yz * b.zz,
    zx := a.zx * b.xx + a.zy * b.yx + a.zz * b.zx,
    zy := a.zx * b.xy + a.zy * b.yy + a.zz * b.zy,
    zz := a.zx * b.xz + a.zy * b.yz + a.zz * b.zz }

/-- Spatial rigid transform, mirroring geo::Pose3D: rotation matrix plus translation. -/
structure Pose3D where
  R : Mat3
  t : Vec3
deriving DecidableEq, Repr

/-- Rigid-transform inverse, as geolib implements it: transposed rotation and
negated back-rotated translation. -/
def Pose3D.inverse (p : Pose3D) : Pose3D :=
  let Rt := p.R.transpose
  { R := Rt,
    t := { x := -(Rt.mulVec p.t).x, y := -(Rt.mulVec p.t).y, z := -(Rt.mulVec p.t).z } }

/-- Rigid-transform composition: (R1, t1) * (R2, t2) = (R1 R2, R1 t2 + t1). -/
def Pose3D.mul (a b : Pose3D) : Pose3D :=
  { R := a.R.mul b.R,
    t := { x := (a.R.mulVec b.t).x + a.t.x,
           y := (a.R.mulVec b.t).y + a.t.y,
           z := (a.R.mulVec b.t).z + a.t.z } }

/-- Projection of a 3-D transform onto the plane, as written out at lines
142-144 and 185-187 of the source: keep the upper-left 2x2 rotation block and
the x,y translation components. -/
def pose3DToTransform2 (p : Pose3D) : Transform2 :=
  { R := { xx := p.R.xx, xy := p.R.xy, yx := p.R.yx, yy := p.R.yy },
    t := { x := p.t.x, y := p.t.y } }

/-- One particle of the filter.  The C++ Sample stores a pose (planar transform)
and a weight; the pose is flattened here to position plus heading angle, the
representation the spec-modelled stage operations use. -/
structure Sample where
  x : ℚ
  y : ℚ
  theta : ℚ
  weight : ℚ
deriving DecidableEq, Repr

/-- A laser scan message, reduced to the fields the controller inspects:
the range readings (passed through to the sensor model) and the capture stamp
(used by the transform lookups, which are modelled as cycle inputs below). -/
structure LaserScan where
  stamp : Nat
  ranges : List ℚ
deriving DecidableEq, Repr

/-- An external initial-pose message: the position and the yaw extracted from
its orientation (tf::getYaw is an external library call). -/
structure InitialPoseMsg where
  x : ℚ
  y : ℚ
  yaw : ℚ
deriving DecidableEq, Repr

/-- The persistent state of the plugin, one field per member variable of
SLAMPlugin that the process function reads or writes.  laser_offset_ and
laser_height_ stand for the offset cached inside laser_model_ by
setLaserOffset; particles_ stands for particle_filter_.samples().
laser_offset_ready_ is the member the header declares on line 57 (the flag
guarding the lazy one-time sensor-offset calibration). -/
structure SLAMPlugin where
  laser_msg_ : Option LaserScan
  initial_pose_msg_ : Option InitialPoseMsg
  have_previous_pose_ : Bool
  previous_pose_ : Pose3D
  laser_offset_ready_ : Bool
  laser_offset_ : Transform2
  laser_height_ : ℚ
  particles_ : List Sample
  num_particles_ : Nat
deriving DecidableEq, Repr

/-- The bundle of particle-filter operations the controller invokes.  Their
implementations are not part of the repository snapshot (only declared and
called), so the controller is verified for an arbitrary bundle; concrete
spec-modelled instances appear further down where a claim needs them.
updateWeights has the world model folded in (the controller merely forwards
data.world). -/
structure Models where
  updatePoses : Transform2 → List Sample → List Sample
  updateWeights : LaserScan → List Sample → List Sample
  resample : Nat → List Sample → List Sample
  calculateMeanPose : List Sample → Transform2
  initUniform : Vec2 → Vec2 → ℚ → ℚ → ℚ → ℚ → List Sample

/-- The per-cycle environment: the messages delivered by the callback queue
since the previous cycle, and the outcomes of the four TF interactions the
controller performs (waitForTransform returning a Bool, lookupTransform either
returning a transform or throwing, modelled as an Option). -/
structure CycleInput where
  laserArrivals : List LaserScan
  poseArrivals : List InitialPoseMsg
  sensorWaitOk : Bool
  sensorLookup : Option Pose3D
  odomWaitOk : Bool
  odomLookup : Option Pose3D

/-- Draining the callback queue: each delivered message overwrites the stored
pointer (laserCallback / initialPoseCallback each assign msg to the member),
so the fold keeps the last arrival.  The controller resets the pointer to none
before draining (lines 110-112). -/
def drainLast {α : Type} (msgs : List α) (cur : Option α) : Option α :=
  msgs.foldl (fun _ m => some m) cur

/-- Lines 114-124: when an initial-pose message is pending, re-seed the
particle set around it with the fixed spreads 0.3 (position) and 0.1 (heading)
at resolutions 0.05; otherwise the particle set is untouched. -/
def seedParticles (m : Models) (o : Option InitialPoseMsg) (cur : List Sample) : List Sample :=
  match o with
  | some ip =>
      m.initUniform { x := ip.x - 3/10, y := ip.y - 3/10 }
                    { x := ip.x + 3/10, y := ip.y + 3/10 } (1/20)
                    (ip.yaw - 1/10) (ip.yaw + 1/10) (1/20)
  | none => cur

/-- Lines 142-148: storing the one-time calibration result: the 2-D slice of
the looked-up sensor transform and its height are handed to the laser model
(setLaserOffset) and the guard flag is set. -/
def calibrate (s : SLAMPlugin) (pl : Pose3D) : SLAMPlugin :=
  { s with laser_offset_ := pose3DToTransform2 pl,
           laser_height_ := pl.t.z,
           laser_offset_ready_ := true }

/-- Lines 129-157: the lazy sensor-offset calibration block.  none models the
two early returns (waitForTransform failure; lookupTransform throwing).  On the
first successful lookup the offset is computed and cached. -/
def runOffsetBlock (s : SLAMPlugin) (inp : CycleInput) : Option SLAMPlugin :=
  if s.laser_offset_ready_ then some s
  else if inp.sensorWaitOk = false then none
  else
    match inp.sensorLookup with
    | none => none
    | some pl => some (calibrate s pl)

/-- Lines 180-194: the motion delta.  With a stored previous odometry pose the
delta is previous_pose_.inverse() * odom_to_base_link projected to the plane;
on the very first cycle it is the identity. -/
def movementOf (s : SLAMPlugin) (otb : Pose3D) : Transform2 :=
  if s.have_previous_pose_ then pose3DToTransform2 (Pose3D.mul s.previous_pose_.inverse otb)
  else Transform2.identity

/-- Lines 163-209: the odometry block.  none models the two early returns
(waitForTransform failure; lookupTransform throwing with no previous pose).
On a successful lookup the previous pose is overwritten and the flag set; on a
caught exception with a previous pose the cycle proceeds with the identity
delta and the stored pose untouched. -/
def computeOdom (s : SLAMPlugin) (inp : CycleInput) : Option (SLAMPlugin × Transform2) :=
  if inp.odomWaitOk = false then none
  else
    match inp.odomLookup with
    | some otb =>
        some ({ s with previous_pose_ := otb, have_previous_pose_ := true },
              movementOf s otb)
    | none =>
        if s.have_previous_pose_ = false then none
        else some (s, Transform2.identity)

/-- Lines 222-249: the three filter stages in their fixed order followed by
mean-pose extraction; the new particle generation replaces the old one and the
mean pose is the published result. -/
def runStages (m : Models) (s : SLAMPlugin) (laser : LaserScan) (movement : Transform2) :
    SLAMPlugin × Option Transform2 :=
  let ps1 := m.updatePoses movement s.particles_
  let ps2 := m.updateWeights laser ps1
  let ps3 := m.resample s.num_particles_ ps2
  ({ s with particles_ := ps3 }, some (m.calculateMeanPose ps3))

/-- Lines 110-124: the state right after the pointer resets, the queue drain
and the initial-pose block: both message pointers hold the last arrival of this
cycle (starting from none), and the particle set is re-seeded when an
initial-pose message is pending. -/
def afterDrain (m : Models) (s : SLAMPlugin) (inp : CycleInput) : SLAMPlugin :=
  { s with laser_msg_ := drainLast inp.laserArrivals none,
           initial_pose_msg_ := drainLast inp.poseArrivals none,
           particles_ := seedParticles m (drainLast inp.poseArrivals none) s.particles_ }

/-- SLAMPlugin::process (lines 106-296), one update cycle.  The returned
Option Transform2 is the published mean pose; none models the early returns
where nothing is published.  The laser check of line 126 reads the member just
assigned by the drain, hence the match on the drained value. -/
def process (m : Models) (s : SLAMPlugin) (inp : CycleInput) : SLAMPlugin × Option Transform2 :=
  let s2 := afterDrain m s inp
  match drainLast inp.laserArrivals none with
  | none => (s2, none)
  | some laser =>
    match runOffsetBlock s2 inp with
    | none => (s2, none)
    | some s3 =>
      match computeOdom s3 inp with
      | none => (s3, none)
      | some (s4, movement) =>
        if s4.particles_.isEmpty then (s4, none)
        else runStages m s4 laser movement

/-- A run of successive update cycles from a starting state. -/
def runCycles (m : Models) (s : SLAMPlugin) (inps : List CycleInput) : SLAMPlugin :=
  inps.foldl (fun st i => (process m st i).1) s

/-- Total weight of a particle set. -/
def totalWeight (set : List Sample) : ℚ :=
  (set.map Sample.weight).sum

/-- Modelled from the spec: the grid points of one axis of the uniform seeding,
from lo to hi at step res ("a regular grid of poses spanning the rectangular
region and angular range at the given resolutions").  Empty when the interval
or the resolution is degenerate. -/
def gridPoints (lo hi res : ℚ) : List ℚ :=
  if 0 < res ∧ lo ≤ hi then
    (List.range (((hi - lo) / res).floor.toNat + 1)).map (fun i : Nat => lo + (i : ℚ) * res)
  else []

/-- Modelled from the spec: ParticleFilter::initUniform, whose body is not in
the repository snapshot.  One particle per grid point over the rectangular
region and the angular range, uniform weight. -/
def specInitUniform (mn mx : Vec2) (res amin amax ares : ℚ) : List Sample :=
  (gridPoints mn.x mx.x res).flatMap (fun px =>
    (gridPoints mn.y mx.y res).flatMap (fun py =>
      (gridPoints amin amax ares).map (fun a =>
        { x := px, y := py, theta := a, weight := 1 })))

/-- The distinct error condition of the resampler. -/
inductive ResampleError where
  | degenerateWeights
deriving DecidableEq, Repr

/-- Cumulative selection: walk the particle list subtracting weights until the
draw u falls inside a particle's weight span (the last particle catches the
remainder). -/
def pickSample : List Sample → ℚ → Sample
  | [], _ => { x := 0, y := 0, theta := 0, weight := 0 }
  | [p], _ => p
  | p :: q :: rest, u => if u < p.weight then p else pickSample (q :: rest) (u - p.weight)

/-- Modelled from the spec: ParticleFilter::resample, whose body is not in the
repository snapshot.  It normalizes the weights and, when the total weight is
degenerate (zero; a non-finite total cannot arise over the rationals), fails
fast with a distinct error rather than divide by zero or silently reseed.
Otherwise it performs low-variance systematic resampling: a single offset r in
the unit step, then fixed-interval walks through the cumulative distribution,
every output particle receiving the uniform weight. -/
def specResample (r : ℚ) (target : Nat) (set : List Sample) : Except ResampleError (List Sample) :=
  let total := totalWeight set
  if total ≤ 0 then Except.error ResampleError.degenerateWeights
  else
    Except.ok ((List.range target).map (fun i =>
      { pickSample set ((r + i) / target * total) with weight := 1 / target }))

/-- Modelled from the spec: one particle of the real-valued mean-pose model
(position, heading angle, weight), used for the weighted circular mean of
ParticleFilter::calculateMeanPose, whose body is not in the repository
snapshot. -/
structure RSample where
  x : ℝ
  y : ℝ
  theta : ℝ
  w : ℝ

/-- Total weight of the real-valued particle set. -/
noncomputable def rTotalWeight (set : List RSample) : ℝ :=
  (set.map RSample.w).sum

/-- Modelled from the spec: the x component of the mean translation, the
weight-normalized sum of the particle x translations. -/
noncomputable def meanX (set : List RSample) : ℝ :=
  (set.map (fun p => p.w * p.x)).sum / rTotalWeight set

/-- Modelled from the spec: the y component of the mean translation. -/
noncomputable def meanY (set : List RSample) : ℝ :=
  (set.map (fun p => p.w * p.y)).sum / rTotalWeight set

/-- Modelled from the spec: the x component of the weighted sum of per-particle
unit heading vectors (cos theta per particle). -/
noncomputable def headingX (set : List RSample) : ℝ :=
  (set.map (fun p => p.w * Real.cos p.theta)).sum

/-- Modelled from the spec: the y component of the weighted sum of per-particle
unit heading vectors (sin theta per particle). -/
noncomputable def headingY (set : List RSample) : ℝ :=
  (set.map (fun p => p.w * Real.sin p.theta)).sum

/-- Modelled from the spec: the mean heading is the angle of the summed heading
vector (the complex argument of headingX + i headingY). -/
noncomputable def meanHeading (set : List RSample) : ℝ :=
  Complex.arg { re := headingX set, im := headingY set }

/-- The two-particle wraparound fixture of the spec: equal weights, headings
+179 and -179 degrees expressed in radians. -/
noncomputable def wrapSet : List RSample :=
  [ { x := 0, y := 0, theta := 179 * Real.pi / 180, w := 1 },
    { x := 0, y := 0, theta := -(179 * Real.pi / 180), w := 1 } ]

/-- The identity 3-D pose, used as a concrete transform lookup result in the
evaluation fixtures below. -/
def idPose3D : Pose3D :=
  { R := { xx := 1, xy := 0, xz := 0, yx := 0, yy := 1, yz := 0, zx := 0, zy := 0, zz := 1 },
    t := { x := 0, y := 0, z := 0 } }

/-- A one-beam scan used by the evaluation fixtures. -/
def scan0 : LaserScan := { stamp := 0, ranges := [1] }

/-- An external initial-pose message used by the evaluation fixtures. -/
def ip0 : InitialPoseMsg := { x := 1, y := 2, yaw := 0 }

/-- A concrete particle for grid-membership evaluation. -/
def sample000 : Sample := { x := 0, y := 0, theta := 0, weight := 1 }

/-- A concrete stage bundle for evaluation: the motion stage pins every
particle at x = 1 (so a run of the stages is observable), the other stages are
identities, and seeding drops a single particle at the region corner. -/
def mShift : Models :=
  { updatePoses := fun _ ps => ps.map (fun p => { p with x := 1 }),
    updateWeights := fun _ ps => ps,
    resample := fun _ ps => ps,
    calculateMeanPose := fun _ => Transform2.identity,
    initUniform := fun mn _ _ amin _ _ => [{ x := mn.x, y := mn.y, theta := amin, weight := 1 }] }

/-- A stage bundle whose sensor stage zeroes every weight: the degenerate
post-sensor weight distribution of the spec's error taxonomy. -/
def mZero : Models :=
  { mShift with updateWeights := fun _ ps => ps.map (fun p => { p with weight := 0 }) }

/-- A tracking state: calibrated offset, stored previous odometry pose, one
particle. -/
def stTrack : SLAMPlugin :=
  { laser_msg_ := none, initial_pose_msg_ := none,
    have_previous_pose_ := true, previous_pose_ := idPose3D,
    laser_offset_ready_ := true, laser_offset_ := Transform2.identity, laser_height_ := 0,
    particles_ := [{ x := 0, y := 0, theta := 0, weight := 1 }],
    num_particles_ := 3 }

/-- A tracking state without a stored previous odometry pose. -/
def stTrackNoPrev : SLAMPlugin :=
  { stTrack with have_previous_pose_ := false }

/-- A pre-initialization state: empty particle set, no previous pose. -/
def stEmpty : SLAMPlugin :=
  { stTrack with particles_ := [], have_previous_pose_ := false }

/-- A freshly constructed state: offset not yet calibrated, no previous pose. -/
def stFresh : SLAMPlugin :=
  { stTrack with laser_offset_ready_ := false, have_previous_pose_ := false }

/-- A state carrying stale message pointers from a previous cycle. -/
def stStale : SLAMPlugin :=
  { stTrack with laser_msg_ := some scan0, initial_pose_msg_ := some ip0 }

/-- A cycle where a scan arrives and every transform interaction succeeds. -/
def inpOk : CycleInput :=
  { laserArrivals := [scan0], poseArrivals := [],
    sensorWaitOk := true, sensorLookup := some idPose3D,
    odomWaitOk := true, odomLookup := some idPose3D }

/-- A cycle where the odometry lookup throws. -/
def inpOdomThrow : CycleInput := { inpOk with odomLookup := none }

/-- A cycle where the odometry wait fails. -/
def inpOdomWaitFail : CycleInput := { inpOk with odomWaitOk := false }

/-- A cycle with no scan arrival. -/
def inpNoLaser : CycleInput := { inpOk with laserArrivals := [] }

/-- A cycle where the sensor-offset lookup throws. -/
def inpCalibFail : CycleInput := { inpOk with sensorLookup := none }

/-- A cycle delivering an initial-pose message and no scan. -/
def inpReset : CycleInput := { inpOk with poseArrivals := [ip0], laserArrivals := [] }

/-- A cycle delivering an initial-pose message while the sensor-offset lookup
throws. -/
def inpResetCalibFail : CycleInput :=
  { inpOk with poseArrivals := [ip0], sensorLookup := none }

/-- A cycle delivering nothing at all. -/
def inpQuiet : CycleInput := { inpOk with laserArrivals := [], poseArrivals := [] }

theorem runOffsetBlock_some (s : SLAMPlugin) (inp : CycleInput) (s3 : SLAMPlugin)
    (h : runOffsetBlock s inp = some s3) :
    s3.have_previous_pose_ = s.have_previous_pose_ ∧
    s3.previous_pose_ = s.previous_pose_ ∧
    s3.particles_ = s.particles_ ∧
    s3.num_particles_ = s.num_particles_ ∧
    s3.laser_msg_ = s.laser_msg_ ∧
    s3.initial_pose_msg_ = s.initial_pose_msg_ ∧
    s3.laser_offset_ready_ = true ∧
    (s.laser_offset_ready_ = true → s3 = s) := by
  unfold runOffsetBlock at h
  rcases hr : s.laser_offset_ready_ <;> rcases hw : inp.sensorWaitOk <;>
    rcases hk : inp.sensorLookup with _ | pl <;> simp_all [calibrate] <;> subst h <;>
    simp_all [calibrate]

theorem computeOdom_some (s : SLAMPlugin) (inp : CycleInput) (s4 : SLAMPlugin)
    (mv : Transform2) (h : computeOdom s inp = some (s4, mv)) :
    s4.laser_offset_ready_ = s.laser_offset_ready_ ∧
    s4.laser_offset_ = s.laser_offset_ ∧
    s4.laser_height_ = s.laser_height_ ∧
    s4.particles_ = s.particles_ ∧
    s4.num_particles_ = s.num_particles_ ∧
    s4.laser_msg_ = s.laser_msg_ ∧
    s4.initial_pose_msg_ = s.initial_pose_msg_ ∧
    s4.have_previous_pose_ = true := by
  unfold computeOdom at h
  rcases hw : inp.odomWaitOk <;> rcases hk : inp.odomLookup with _ | otb <;>
    rcases hp : s.have_previous_pose_ <;> simp_all <;>
    obtain ⟨h1, h2⟩ := h <;> subst h1 <;> simp_all

theorem runStages_fields (m : Models) (s : SLAMPlugin) (laser : LaserScan) (mv : Transform2) :
    (runStages m s laser mv).1.have_previous_pose_ = s.have_previous_pose_ ∧
    (runStages m s laser mv).1.previous_pose_ = s.previous_pose_ ∧
    (runStages m s laser mv).1.laser_offset_ready_ = s.laser_offset_ready_ ∧
    (runStages m s laser mv).1.laser_offset_ = s.laser_offset_ ∧
    (runStages m s laser mv).1.laser_height_ = s.laser_height_ ∧
    (runStages m s laser mv).1.laser_msg_ = s.laser_msg_ ∧
    (runStages m s laser mv).1.initial_pose_msg_ = s.initial_pose_msg_ ∧
    (runStages m s laser mv).1.num_particles_ = s.num_particles_ := by
  simp [runStages]

theorem process_noLaser (m : Models) (s : SLAMPlugin) (inp : CycleInput)
    (hl : drainLast inp.laserArrivals none = none) :
    process m s inp = (afterDrain m s inp, none) := by
  unfold process
  simp [hl]

theorem process_offsetFail (m : Models) (s : SLAMPlugin) (inp : CycleInput) (l : LaserScan)
    (hl : drainLast inp.laserArrivals none = some l)
    (hoff : s.laser_offset_ready_ = false)
    (hfail : inp.sensorWaitOk = false ∨ inp.sensorLookup = none) :
    process m s inp = (afterDrain m s inp, none) := by
  have hb : runOffsetBlock (afterDrain m s inp) inp = none := by
    have : (afterDrain m s inp).laser_offset_ready_ = false := by simp [afterDrain, hoff]
    rcases hfail with hf | hf <;> simp [runOffsetBlock, this, hf]
  unfold process
  simp [hl, hb]

theorem runOffsetBlock_ready (m : Models) (s : SLAMPlugin) (inp : CycleInput)
    (hoff : s.laser_offset_ready_ = true) :
    runOffsetBlock (afterDrain m s inp) inp = some (afterDrain m s inp) := by
  have : (afterDrain m s inp).laser_offset_ready_ = true := by simp [afterDrain, hoff]
  simp [runOffsetBlock, this]

theorem process_odomFail (m : Models) (s : SLAMPlugin) (inp : CycleInput) (l : LaserScan)
    (s3 : SLAMPlugin)
    (hl : drainLast inp.laserArrivals none = some l)
    (hb : runOffsetBlock (afterDrain m s inp) inp = some s3)
    (hc : computeOdom s3 inp = none) :
    process m s inp = (s3, none) := by
  unfold process
  simp [hl, hb, hc]

theorem process_run (m : Models) (s : SLAMPlugin) (inp : CycleInput) (l : LaserScan)
    (s3 s4 : SLAMPlugin) (mv : Transform2)
    (hl : drainLast inp.laserArrivals none = some l)
    (hb : runOffsetBlock (afterDrain m s inp) inp = some s3)
    (hc : computeOdom s3 inp = some (s4, mv))
    (hne : s4.particles_ ≠ []) :
    process m s inp = runStages m s4 l mv := by
  unfold process
  simp [hl, hb, hc, hne]

theorem process_emptySkip (m : Models) (s : SLAMPlugin) (inp : CycleInput) (l : LaserScan)
    (s3 s4 : SLAMPlugin) (mv : Transform2)
    (hl : drainLast inp.laserArrivals none = some l)
    (hb : runOffsetBlock (afterDrain m s inp) inp = some s3)
    (hc : computeOdom s3 inp = some (s4, mv))
    (he : s4.particles_ = []) :
    process m s inp = (s4, none) := by
  unfold process
  simp [hl, hb, hc, he]

theorem computeOdom_success (s : SLAMPlugin) (inp : CycleInput) (otb : Pose3D)
    (hw : inp.odomWaitOk = true) (ho : inp.odomLookup = some otb) :
    computeOdom s inp =
      some ({ s with previous_pose_ := otb, have_previous_pose_ := true }, movementOf s otb) := by
  simp [computeOdom, hw, ho]

theorem computeOdom_identity (s : SLAMPlugin) (inp : CycleInput)
    (hw : inp.odomWaitOk = true) (ho : inp.odomLookup = none)
    (hprev : s.have_previous_pose_ = true) :
    computeOdom s inp = some (s, Transform2.identity) := by
  simp [computeOdom, hw, ho, hprev]

theorem process_preserves_offset (m : Models) (s : SLAMPlugin) (inp : CycleInput)
    (h : s.laser_offset_ready_ = true) :
    (process m s inp).1.laser_offset_ready_ = true ∧
    (process m s inp).1.laser_offset_ = s.laser_offset_ ∧
    (process m s inp).1.laser_height_ = s.laser_height_ := by
  unfold process
  rcases hL : drainLast inp.laserArrivals none with _ | l
  · simp [hL, afterDrain, h]
  · simp only [hL]
    rcases hB : runOffsetBlock (afterDrain m s inp) inp with _ | s3
    · simp [hB, afterDrain, h]
    · simp only [hB]
      have hready : (afterDrain m s inp).laser_offset_ready_ = true := by simp [afterDrain, h]
      have hs3 : s3 = afterDrain m s inp := (runOffsetBlock_some _ _ _ hB).2.2.2.2.2.2.2 hready
      rcases hC : computeOdom s3 inp with _ | ⟨s4, mv⟩
      · simp [hC, hs3, afterDrain, h]
      · simp only [hC]
        obtain ⟨c1, c2, c3, -⟩ := computeOdom_some _ _ _ _ hC
        by_cases he : s4.particles_.isEmpty
        · simp [he, c1, c2, c3, hs3, afterDrain, h]
        · simp [he, runStages, c1, c2, c3, hs3, afterDrain, h]

theorem process_preserves_hpp (m : Models) (s : SLAMPlugin) (inp : CycleInput)
    (h : s.have_previous_pose_ = true) :
    (process m s inp).1.have_previous_pose_ = true := by
  unfold process
  rcases hL : drainLast inp.laserArrivals none with _ | l
  · simp [hL, afterDrain, h]
  · simp only [hL]
    rcases hB : runOffsetBlock (afterDrain m s inp) inp with _ | s3
    · simp [hB, afterDrain, h]
    · simp only [hB]
      have hb := (runOffsetBlock_some _ _ _ hB).1
      rcases hC : computeOdom s3 inp with _ | ⟨s4, mv⟩
      · simp [hC, hb, afterDrain, h]
      · simp only [hC]
        have hc := (computeOdom_some _ _ _ _ hC).2.2.2.2.2.2.2
        by_cases he : s4.particles_.isEmpty
        · simp [he, hc]
        · simp [he, runStages, hc]

theorem runCycles_offset (m : Models) (inps : List CycleInput) :
    ∀ s : SLAMPlugin, s.laser_offset_ready_ = true →
      (runCycles m s inps).laser_offset_ready_ = true ∧
      (runCycles m s inps).laser_offset_ = s.laser_offset_ ∧
      (runCycles m s inps).laser_height_ = s.laser_height_ := by
  induction inps with
  | nil => intro s h; simp [runCycles, h]
  | cons i rest ih =>
      intro s h
      obtain ⟨h1, h2, h3⟩ := process_preserves_offset m s i h
      have hr : runCycles m s (i :: rest) = runCycles m (process m s i).1 rest := rfl
      rw [hr]
      obtain ⟨g1, g2, g3⟩ := ih (process m s i).1 h1
      exact ⟨g1, g2.trans h2, g3.trans h3⟩

theorem runCycles_hpp (m : Models) (inps : List CycleInput) :
    ∀ s : SLAMPlugin, s.have_previous_pose_ = true →
      (runCycles m s inps).have_previous_pose_ = true := by
  induction inps with
  | nil => intro s h; simpa [runCycles] using h
  | cons i rest ih =>
      intro s h
      exact ih (process m s i).1 (process_preserves_hpp m s i h)

theorem gridPoints_mem (lo hi res x : ℚ) (h : x ∈ gridPoints lo hi res) :
    lo ≤ x ∧ x ≤ hi := by
  unfold gridPoints at h
  by_cases hc : 0 < res ∧ lo ≤ hi
  · rw [if_pos hc] at h
    simp only [List.mem_map, List.mem_range] at h
    obtain ⟨i, hlt, rfl⟩ := h
    have hres := hc.1
    have hle := hc.2
    have hi0 : (0:ℚ) ≤ (i : ℚ) * res := mul_nonneg (by positivity) (le_of_lt hres)
    refine ⟨by linarith, ?_⟩
    have hq : (0:ℚ) ≤ (hi - lo) / res := div_nonneg (by linarith) (le_of_lt hres)
    have hfl : (0:ℤ) ≤ ((hi - lo) / res).floor := Int.floor_nonneg.mpr hq
    have hiz : (i : ℤ) ≤ ((hi - lo) / res).floor := by omega
    have hiq : (i : ℚ) ≤ (hi - lo) / res := by
      calc (i : ℚ) ≤ (((hi - lo) / res).floor : ℚ) := by exact_mod_cast hiz
        _ ≤ (hi - lo) / res := Int.floor_le _
    have hmul : (i : ℚ) * res ≤ hi - lo := by
      have := (le_div_iff₀ hres).mp hiq
      linarith
    linarith
  · simp [hc] at h

theorem specInitUniform_mem (mn mx : Vec2) (res amin amax ares : ℚ) (p : Sample)
    (h : p ∈ specInitUniform mn mx res amin amax ares) :
    mn.x ≤ p.x ∧ p.x ≤ mx.x ∧ mn.y ≤ p.y ∧ p.y ≤ mx.y ∧
    amin ≤ p.theta ∧ p.theta ≤ amax ∧ p.weight = 1 := by
  unfold specInitUniform at h
  simp only [List.mem_flatMap, List.mem_map] at h
  obtain ⟨px, hpx, py, hpy, a, ha, rfl⟩ := h
  obtain ⟨h1, h2⟩ := gridPoints_mem _ _ _ _ hpx
  obtain ⟨h3, h4⟩ := gridPoints_mem _ _ _ _ hpy
  obtain ⟨h5, h6⟩ := gridPoints_mem _ _ _ _ ha
  exact ⟨h1, h2, h3, h4, h5, h6, rfl⟩

/-- Claim C3: every update cycle that runs on a non-empty particle set executes
exactly the sequence motion update, then sensor reweighting, then resampling
with the configured target particle count, then mean-pose extraction, in that
fixed order, all completing before the call returns: the resulting particle set
is the resample of the reweighting of the moved particles, and the published
pose is the mean of that final set. -/
theorem claim_C3 (m : Models) (s : SLAMPlugin) (inp : CycleInput) (l : LaserScan)
    (otb : Pose3D)
    (hp : drainLast inp.poseArrivals none = none)
    (hl : drainLast inp.laserArrivals none = some l)
    (hoff : s.laser_offset_ready_ = true)
    (hw : inp.odomWaitOk = true)
    (ho : inp.odomLookup = some otb)
    (hne : s.particles_ ≠ []) :
    (process m s inp).1.particles_ =
      m.resample s.num_particles_
        (m.updateWeights l (m.updatePoses (movementOf s otb) s.particles_)) ∧
    (process m s inp).2 =
      some (m.calculateMeanPose
        (m.resample s.num_particles_
          (m.updateWeights l (m.updatePoses (movementOf s otb) s.particles_)))) := by
  obtain ⟨s4, mv, hC, hs4p, hs4n, hmv⟩ :
      ∃ s4 mv, computeOdom (afterDrain m s inp) inp = some (s4, mv) ∧
        s4.particles_ = s.particles_ ∧ s4.num_particles_ = s.num_particles_ ∧
        mv = movementOf s otb := by
    refine ⟨_, _, computeOdom_success _ inp otb hw ho, ?_, ?_, ?_⟩ <;>
      simp [afterDrain, hp, seedParticles, movementOf]
  have hne4 : s4.particles_ ≠ [] := by rw [hs4p]; exact hne
  have hrun := process_run m s inp l _ s4 mv hl (runOffsetBlock_ready m s inp hoff) hC hne4
  rw [hrun, hmv]
  simp [runStages, hs4p, hs4n]

/-- Claim C3 witness: a concrete tracking state and successful cycle. -/
theorem claim_C3_witness :
    (process mShift stTrack inpOk).1.particles_ =
      mShift.resample stTrack.num_particles_
        (mShift.updateWeights scan0
          (mShift.updatePoses (movementOf stTrack idPose3D) stTrack.particles_)) ∧
    (process mShift stTrack inpOk).2 =
      some (mShift.calculateMeanPose
        (mShift.resample stTrack.num_particles_
          (mShift.updateWeights scan0
            (mShift.updatePoses (movementOf stTrack idPose3D) stTrack.particles_)))) :=
  claim_C3 mShift stTrack inpOk scan0 idPose3D (by decide) (by decide) (by decide)
    (by decide) (by decide) (by decide)

/-- Claim C6: an update cycle invoked while the particle set is empty (and no
pose-reset event re-seeds it this cycle) runs no motion, sensor or resample
stage and produces no pose estimate: the particle set stays empty and nothing
is published, for every stage implementation, rather than an error. -/
theorem claim_C6 (m : Models) (s : SLAMPlugin) (inp : CycleInput)
    (hp : drainLast inp.poseArrivals none = none)
    (he : s.particles_ = []) :
    (process m s inp).1.particles_ = [] ∧ (process m s inp).2 = none := by
  have hA : (afterDrain m s inp).particles_ = [] := by
    simp [afterDrain, hp, seedParticles, he]
  unfold process
  rcases hL : drainLast inp.laserArrivals none with _ | l
  · simp [hA]
  · simp only [hL]
    rcases hB : runOffsetBlock (afterDrain m s inp) inp with _ | s3
    · simp [hB, hA]
    · simp only [hB]
      have hb := (runOffsetBlock_some _ _ _ hB).2.2.1
      rcases hC : computeOdom s3 inp with _ | ⟨s4, mv⟩
      · simp [hC, hb, hA]
      · simp only [hC]
        have hc := (computeOdom_some _ _ _ _ hC).2.2.2.1
        have he4 : s4.particles_ = [] := by rw [hc, hb, hA]
        simp [he4]

/-- Claim C6 witness: the empty pre-initialization state under a fully
successful cycle. -/
theorem claim_C6_witness :
    (process mShift stEmpty inpOk).1.particles_ = [] ∧
    (process mShift stEmpty inpOk).2 = none :=
  claim_C6 mShift stEmpty inpOk (by decide) (by decide)

/-- Claim C10: the stored message pointers are cleared at the start of every
cycle before the callback queue is drained, so after a cycle they hold exactly
the last arrival of that cycle (or none); in particular a cycle in which no new
scan and no new pose message arrived is skipped entirely with the particle set
unchanged, never re-processing the previous scan or re-applying a pose reset,
whatever stale pointers the state carried. -/
theorem claim_C10 (m : Models) (s : SLAMPlugin) (inp : CycleInput) :
    ((process m s inp).1.laser_msg_ = drainLast inp.laserArrivals none ∧
     (process m s inp).1.initial_pose_msg_ = drainLast inp.poseArrivals none) ∧
    (inp.laserArrivals = [] → inp.poseArrivals = [] →
      (process m s inp).2 = none ∧
      (process m s inp).1.particles_ = s.particles_ ∧
      (process m s inp).1.laser_msg_ = none ∧
      (process m s inp).1.initial_pose_msg_ = none) := by
  constructor
  · unfold process
    rcases hL : drainLast inp.laserArrivals none with _ | l
    · simp [hL, afterDrain]
    · simp only [hL]
      rcases hB : runOffsetBlock (afterDrain m s inp) inp with _ | s3
      · simp [hB, afterDrain, hL]
      · simp only [hB]
        obtain ⟨-, -, -, -, b5, b6, -, -⟩ := runOffsetBlock_some _ _ _ hB
        have h3l : s3.laser_msg_ = some l := by rw [b5]; simp [afterDrain, hL]
        have h3p : s3.initial_pose_msg_ = drainLast inp.poseArrivals none := by
          rw [b6]; simp [afterDrain]
        rcases hC : computeOdom s3 inp with _ | ⟨s4, mv⟩
        · simp [hC, h3l, h3p, hL]
        · simp only [hC]
          obtain ⟨-, -, -, -, -, c6, c7, -⟩ := computeOdom_some _ _ _ _ hC
          have h4l : s4.laser_msg_ = some l := by rw [c6]; exact h3l
          have h4p : s4.initial_pose_msg_ = drainLast inp.poseArrivals none := by
            rw [c7]; exact h3p
          by_cases he : s4.particles_.isEmpty
          · simp [he, h4l, h4p, hL]
          · obtain ⟨-, -, -, -, -, r6, r7, -⟩ := runStages_fields m s4 l mv
            simp [he, r6, r7, h4l, h4p, hL]
  · intro hle hpe
    have hl : drainLast inp.laserArrivals none = none := by rw [hle]; rfl
    have hp : drainLast inp.poseArrivals none = none := by rw [hpe]; rfl
    rw [process_noLaser m s inp hl]
    simp [afterDrain, hl, hp, seedParticles]

/-- Claim C10 witness: a state carrying stale pointers through a quiet cycle. -/
theorem claim_C10_witness :
    ((process mShift stStale inpQuiet).1.laser_msg_ = drainLast inpQuiet.laserArrivals none ∧
     (process mShift stStale inpQuiet).1.initial_pose_msg_ =
       drainLast inpQuiet.poseArrivals none) ∧
    ((process mShift stStale inpQuiet).2 = none ∧
     (process mShift stStale inpQuiet).1.particles_ = stStale.particles_ ∧
     (process mShift stStale inpQuiet).1.laser_msg_ = none ∧
     (process mShift stStale inpQuiet).1.initial_pose_msg_ = none) :=
  ⟨(claim_C10 mShift stStale inpQuiet).1,
   (claim_C10 mShift stStale inpQuiet).2 (by decide) (by decide)⟩

/-- Claim C5: a pose-reset event re-seeds the entire particle set (the result
is independent of the prior belief) using uniform seeding over the rectangular
region centered on the supplied pose with position spread 0.3 length-units and
heading spread 0.1 rad; the most recent event delivered before the cycle is
the one applied (the queue drain keeps the last arrival); and every particle of
the spec-modelled uniform seeding lies inside the requested region with uniform
weight. -/
theorem claim_C5 :
    (∀ (pre : List InitialPoseMsg) (ip : InitialPoseMsg),
        drainLast (pre ++ [ip]) (none : Option InitialPoseMsg) = some ip) ∧
    (∀ (m : Models) (s : SLAMPlugin) (inp : CycleInput) (ip : InitialPoseMsg),
        drainLast inp.poseArrivals none = some ip →
        drainLast inp.laserArrivals none = none →
        (process m s inp).1.particles_ =
          m.initUniform { x := ip.x - 3/10, y := ip.y - 3/10 }
            { x := ip.x + 3/10, y := ip.y + 3/10 } (1/20)
            (ip.yaw - 1/10) (ip.yaw + 1/10) (1/20)) ∧
    (∀ (mn mx : Vec2) (res amin amax ares : ℚ) (p : Sample),
        p ∈ specInitUniform mn mx res amin amax ares →
        mn.x ≤ p.x ∧ p.x ≤ mx.x ∧ mn.y ≤ p.y ∧ p.y ≤ mx.y ∧
        amin ≤ p.theta ∧ p.theta ≤ amax ∧ p.weight = 1) := by
  refine ⟨?_, ?_, ?_⟩
  · intro pre ip
    simp [drainLast, List.foldl_append]
  · intro m s inp ip hp hl
    rw [process_noLaser m s inp hl]
    simp [afterDrain, hp, seedParticles]
  · intro mn mx res amin amax ares p hmem
    exact specInitUniform_mem mn mx res amin amax ares p hmem

/-- Claim C5 witness: a concrete reset cycle and a concrete seeded grid. -/
theorem claim_C5_witness :
    drainLast ([] ++ [ip0]) (none : Option InitialPoseMsg) = some ip0 ∧
    (process mShift stTrack inpReset).1.particles_ =
      mShift.initUniform { x := ip0.x - 3/10, y := ip0.y - 3/10 }
        { x := ip0.x + 3/10, y := ip0.y + 3/10 } (1/20)
        (ip0.yaw - 1/10) (ip0.yaw + 1/10) (1/20) ∧
    ((0:ℚ) ≤ sample000.x ∧ sample000.x ≤ 0 ∧ (0:ℚ) ≤ sample000.y ∧ sample000.y ≤ 0 ∧
     (0:ℚ) ≤ sample000.theta ∧ sample000.theta ≤ 0 ∧ sample000.weight = 1) :=
  ⟨claim_C5.1 [] ip0,
   claim_C5.2.1 mShift stTrack inpReset ip0 (by decide) (by decide),
   claim_C5.2.2 { x := 0, y := 0 } { x := 0, y := 0 } 1 0 0 1 sample000
     (by norm_num [specInitUniform, gridPoints]; decide)⟩

/-- Claim C9: a pending initial-pose event is applied at the start of the
cycle, before the laser-availability and calibration checks: when such a
message arrived, the particle set is re-seeded around it even when the rest of
the cycle is skipped because no scan is available or because the sensor-offset
calibration cannot be resolved. -/
theorem claim_C9 (m : Models) (s : SLAMPlugin) (inp : CycleInput) (ip : InitialPoseMsg)
    (hp : drainLast inp.poseArrivals none = some ip) :
    (drainLast inp.laserArrivals none = none →
      (process m s inp).1.particles_ =
        m.initUniform { x := ip.x - 3/10, y := ip.y - 3/10 }
          { x := ip.x + 3/10, y := ip.y + 3/10 } (1/20)
          (ip.yaw - 1/10) (ip.yaw + 1/10) (1/20) ∧
      (process m s inp).2 = none) ∧
    (∀ l, drainLast inp.laserArrivals none = some l →
      s.laser_offset_ready_ = false →
      (inp.sensorWaitOk = false ∨ inp.sensorLookup = none) →
      (process m s inp).1.particles_ =
        m.initUniform { x := ip.x - 3/10, y := ip.y - 3/10 }
          { x := ip.x + 3/10, y := ip.y + 3/10 } (1/20)
          (ip.yaw - 1/10) (ip.yaw + 1/10) (1/20) ∧
      (process m s inp).2 = none) := by
  constructor
  · intro hl
    rw [process_noLaser m s inp hl]
    simp [afterDrain, hp, seedParticles]
  · intro l hl hoff hfail
    rw [process_offsetFail m s inp l hl hoff hfail]
    simp [afterDrain, hp, seedParticles]

/-- Claim C9 witness: the reseed applied on a no-scan cycle and on a cycle
whose calibration lookup throws. -/
theorem claim_C9_witness :
    ((process mShift stTrack inpReset).1.particles_ =
       mShift.initUniform { x := ip0.x - 3/10, y := ip0.y - 3/10 }
         { x := ip0.x + 3/10, y := ip0.y + 3/10 } (1/20)
         (ip0.yaw - 1/10) (ip0.yaw + 1/10) (1/20) ∧
     (process mShift stTrack inpReset).2 = none) ∧
    ((process mShift stFresh inpResetCalibFail).1.particles_ =
       mShift.initUniform { x := ip0.x - 3/10, y := ip0.y - 3/10 }
         { x := ip0.x + 3/10, y := ip0.y + 3/10 } (1/20)
         (ip0.yaw - 1/10) (ip0.yaw + 1/10) (1/20) ∧
     (process mShift stFresh inpResetCalibFail).2 = none) :=
  ⟨(claim_C9 mShift stTrack inpReset ip0 (by decide)).1 (by decide),
   (claim_C9 mShift stFresh inpResetCalibFail ip0 (by decide)).2 scan0 (by decide) (by decide)
     (Or.inr (by decide))⟩

/-- Claim C1 counterexample: a cycle in which the odometry transform cannot be
obtained (the lookup throws, modelled as odomLookup = none) but a previous
odometry pose is stored is NOT skipped: the motion, sensor and resample stages
run (here the motion stage visibly moves the particle) and a pose estimate is
published, contradicting the claim that every such cycle leaves the prior
particle set unchanged. -/
theorem claim_C1_counterexample :
    inpOdomThrow.odomWaitOk = true ∧ inpOdomThrow.odomLookup = none ∧
    (process mShift stTrack inpOdomThrow).2.isSome = true ∧
    (process mShift stTrack inpOdomThrow).1.particles_ ≠ stTrack.particles_ := by
  decide

/-- Claim C1 (amended): when the odometry transform cannot be obtained, the
controller skips the cycle entirely (nothing published, particle set untouched)
only if the wait step fails or no previous odometry pose is stored; when the
lookup throws while a previous pose is stored, the cycle instead proceeds
through all stages with an identity motion delta. -/
theorem claim_C1 (m : Models) (s : SLAMPlugin) (inp : CycleInput) (l : LaserScan)
    (hp : drainLast inp.poseArrivals none = none)
    (hl : drainLast inp.laserArrivals none = some l)
    (hoff : s.laser_offset_ready_ = true) :
    ((inp.odomWaitOk = false ∨ (inp.odomLookup = none ∧ s.have_previous_pose_ = false)) →
      (process m s inp).2 = none ∧ (process m s inp).1.particles_ = s.particles_) ∧
    (inp.odomWaitOk = true → inp.odomLookup = none → s.have_previous_pose_ = true →
     s.particles_ ≠ [] →
      (process m s inp).1.particles_ =
        m.resample s.num_particles_
          (m.updateWeights l (m.updatePoses Transform2.identity s.particles_)) ∧
      (process m s inp).2.isSome = true) := by
  constructor
  · intro hfail
    have hcnone : computeOdom (afterDrain m s inp) inp = none := by
      rcases hfail with hf | ⟨hf1, hf2⟩
      · simp [computeOdom, hf]
      · have hprev : (afterDrain m s inp).have_previous_pose_ = false := by
          simp [afterDrain, hf2]
        rcases hw2 : inp.odomWaitOk <;> simp [computeOdom, hw2, hf1, hprev]
    rw [process_odomFail m s inp l (afterDrain m s inp) hl
      (runOffsetBlock_ready m s inp hoff) hcnone]
    simp [afterDrain, hp, seedParticles]
  · intro hw ho hprev hne
    have hprev2 : (afterDrain m s inp).have_previous_pose_ = true := by
      simp [afterDrain, hprev]
    have hc := computeOdom_identity (afterDrain m s inp) inp hw ho hprev2
    have hne2 : (afterDrain m s inp).particles_ ≠ [] := by
      simpa [afterDrain, hp, seedParticles] using hne
    rw [process_run m s inp l _ _ _ hl (runOffsetBlock_ready m s inp hoff) hc hne2]
    constructor
    · simp [runStages, afterDrain, hp, seedParticles]
    · simp [runStages]

/-- Claim C1 witness: the two amended behaviours at concrete cycles: a failed
odometry wait skips the cycle; a thrown lookup with a stored previous pose runs
the stages with the identity delta and publishes. -/
theorem claim_C1_witness :
    ((process mShift stTrack inpOdomWaitFail).2 = none ∧
     (process mShift stTrack inpOdomWaitFail).1.particles_ = stTrack.particles_) ∧
    ((process mShift stTrack inpOdomThrow).1.particles_ =
       mShift.resample stTrack.num_particles_
         (mShift.updateWeights scan0
           (mShift.updatePoses Transform2.identity stTrack.particles_)) ∧
     (process mShift stTrack inpOdomThrow).2.isSome = true) :=
  ⟨(claim_C1 mShift stTrack inpOdomWaitFail scan0 (by decide) (by decide) (by decide)).1
     (Or.inl (by decide)),
   (claim_C1 mShift stTrack inpOdomThrow scan0 (by decide) (by decide) (by decide)).2
     (by decide) (by decide) (by decide) (by decide)⟩

/-- Claim C2 counterexample: a cycle whose sensor update drives the total
weight to zero still completes and publishes a freshly computed mean pose: the
controller neither surfaces a degenerate-weights condition to its caller (its
result carries no error channel and is some estimate here) nor keeps the
previous estimate as the last known result. -/
theorem claim_C2_counterexample :
    totalWeight (mZero.updateWeights scan0
      (mZero.updatePoses Transform2.identity stTrackNoPrev.particles_)) = 0 ∧
    (process mZero stTrackNoPrev inpOk).2.isSome = true := by
  constructor
  · simp [mZero, mShift, totalWeight, stTrackNoPrev, stTrack]
  · decide

/-- Claim C2 (amended): the spec-modelled resampler itself fails fast with the
distinct degenerate-weights error whenever the total weight is zero (no
division by zero, no silent reseed); the controller, however, never checks or
surfaces such a condition: every cycle that reaches the stages publishes a
fresh mean pose, whatever the stage implementations do to the weights. -/
theorem claim_C2 :
    (∀ (r : ℚ) (n : Nat) (set : List Sample), totalWeight set = 0 →
        specResample r n set = Except.error ResampleError.degenerateWeights) ∧
    (∀ (m : Models) (s : SLAMPlugin) (inp : CycleInput) (l : LaserScan) (otb : Pose3D),
        drainLast inp.poseArrivals none = none →
        drainLast inp.laserArrivals none = some l →
        s.laser_offset_ready_ = true →
        inp.odomWaitOk = true →
        inp.odomLookup = some otb →
        s.particles_ ≠ [] →
        (process m s inp).2.isSome = true) := by
  constructor
  · intro r n set h
    simp [specResample, h]
  · intro m s inp l otb hp hl hoff hw ho hne
    obtain ⟨s4, mv, hC, hs4p⟩ :
        ∃ s4 mv, computeOdom (afterDrain m s inp) inp = some (s4, mv) ∧
          s4.particles_ = s.particles_ := by
      refine ⟨_, _, computeOdom_success _ inp otb hw ho, ?_⟩
      simp [afterDrain, hp, seedParticles]
    have hne4 : s4.particles_ ≠ [] := by rw [hs4p]; exact hne
    rw [process_run m s inp l _ s4 mv hl (runOffsetBlock_ready m s inp hoff) hC hne4]
    simp [runStages]

/-- Claim C2 witness: the resampler error at a concrete zero-weight set, and a
concrete degenerate cycle that still publishes. -/
theorem claim_C2_witness :
    specResample 0 3 [{ x := 0, y := 0, theta := 0, weight := 0 }] =
      Except.error ResampleError.degenerateWeights ∧
    (process mZero stTrack inpOk).2.isSome = true :=
  ⟨claim_C2.1 0 3 [{ x := 0, y := 0, theta := 0, weight := 0 }] (by simp [totalWeight]),
   claim_C2.2 mZero stTrack inpOk scan0 idPose3D (by decide) (by decide) (by decide)
     (by decide) (by decide) (by decide)⟩

/-- Claim C4: the sensor mounting offset is resolved lazily: while it is
unresolved, a cycle whose calibration lookup fails is skipped entirely like
missing input (nothing published, particle set and odometry bookkeeping
untouched, offset still unresolved); on the first successful lookup the offset
is computed, handed to the sensor model and the guard flag set; and once
resolved it is cached unchanged for the remainder of the run (the calibration
step never executes again over any sequence of further cycles). -/
theorem claim_C4 (m : Models) (s : SLAMPlugin) (inp : CycleInput) (l : LaserScan) :
    (drainLast inp.poseArrivals none = none →
     drainLast inp.laserArrivals none = some l →
     s.laser_offset_ready_ = false →
     (inp.sensorWaitOk = false ∨ inp.sensorLookup = none) →
     (process m s inp).2 = none ∧
     (process m s inp).1.particles_ = s.particles_ ∧
     (process m s inp).1.laser_offset_ready_ = false ∧
     (process m s inp).1.have_previous_pose_ = s.have_previous_pose_ ∧
     (process m s inp).1.previous_pose_ = s.previous_pose_) ∧
    (∀ pl, drainLast inp.laserArrivals none = some l →
     s.laser_offset_ready_ = false →
     inp.sensorWaitOk = true →
     inp.sensorLookup = some pl →
     (process m s inp).1.laser_offset_ready_ = true ∧
     (process m s inp).1.laser_offset_ = pose3DToTransform2 pl ∧
     (process m s inp).1.laser_height_ = pl.t.z) ∧
    (∀ inps, s.laser_offset_ready_ = true →
     (runCycles m s inps).laser_offset_ready_ = true ∧
     (runCycles m s inps).laser_offset_ = s.laser_offset_ ∧
     (runCycles m s inps).laser_height_ = s.laser_height_) := by
  refine ⟨?_, ?_, ?_⟩
  · intro hp hl hoff hfail
    rw [process_offsetFail m s inp l hl hoff hfail]
    simp [afterDrain, hp, seedParticles, hoff]
  · intro pl hl hoff hw2 hk
    have hready : (afterDrain m s inp).laser_offset_ready_ = false := by
      simp [afterDrain, hoff]
    have hB : runOffsetBlock (afterDrain m s inp) inp =
        some (calibrate (afterDrain m s inp) pl) := by
      simp [runOffsetBlock, hready, hw2, hk]
    rcases hC : computeOdom (calibrate (afterDrain m s inp) pl) inp with _ | ⟨s4, mv⟩
    · rw [process_odomFail m s inp l _ hl hB hC]
      simp [calibrate]
    · obtain ⟨c1, c2, c3, -⟩ := computeOdom_some _ _ _ _ hC
      by_cases he : s4.particles_.isEmpty
      · rw [process_emptySkip m s inp l _ s4 mv hl hB hC (List.isEmpty_iff.mp he)]
        simp [c1, c2, c3, calibrate]
      · rw [process_run m s inp l _ s4 mv hl hB hC
          (fun hnil => he (by simp [hnil]))]
        obtain ⟨-, -, r3, r4, r5, -⟩ := runStages_fields m s4 l mv
        rw [r3, r4, r5, c1, c2, c3]
        simp [calibrate]
  · intro inps hr
    exact runCycles_offset m inps s hr

/-- Claim C4 witness: a skipped cycle while unresolved, the first successful
calibration, and the cached offset surviving two further cycles. -/
theorem claim_C4_witness :
    ((process mShift stFresh inpCalibFail).2 = none ∧
     (process mShift stFresh inpCalibFail).1.particles_ = stFresh.particles_ ∧
     (process mShift stFresh inpCalibFail).1.laser_offset_ready_ = false ∧
     (process mShift stFresh inpCalibFail).1.have_previous_pose_ =
       stFresh.have_previous_pose_ ∧
     (process mShift stFresh inpCalibFail).1.previous_pose_ = stFresh.previous_pose_) ∧
    ((process mShift stFresh inpOk).1.laser_offset_ready_ = true ∧
     (process mShift stFresh inpOk).1.laser_offset_ = pose3DToTransform2 idPose3D ∧
     (process mShift stFresh inpOk).1.laser_height_ = idPose3D.t.z) ∧
    ((runCycles mShift stTrack [inpOk, inpNoLaser]).laser_offset_ready_ = true ∧
     (runCycles mShift stTrack [inpOk, inpNoLaser]).laser_offset_ = stTrack.laser_offset_ ∧
     (runCycles mShift stTrack [inpOk, inpNoLaser]).laser_height_ = stTrack.laser_height_) :=
  ⟨(claim_C4 mShift stFresh inpCalibFail scan0).1 (by decide) (by decide) (by decide)
     (Or.inr (by decide)),
   (claim_C4 mShift stFresh inpOk scan0).2.1 idPose3D (by decide) (by decide) (by decide)
     (by decide),
   (claim_C4 mShift stTrack inpOk scan0).2.2 [inpOk, inpNoLaser] (by decide)⟩

/-- Claim C8: odometry bookkeeping advances independently of the filter
update: on every cycle with a scan present that reaches a successful odometry
lookup, the stored previous pose is overwritten with the looked-up
odom-to-base-link pose and the have-previous-pose flag becomes true (no
hypothesis on the particle set: this holds in particular when it is empty and
the stages are skipped); and once the flag is true it stays true over any
sequence of further cycles. -/
theorem claim_C8 (m : Models) (s : SLAMPlugin) (inp : CycleInput) (l : LaserScan)
    (otb : Pose3D) :
    (drainLast inp.laserArrivals none = some l →
     (s.laser_offset_ready_ = true ∨
      (s.laser_offset_ready_ = false ∧ inp.sensorWaitOk = true ∧
       inp.sensorLookup.isSome = true)) →
     inp.odomWaitOk = true →
     inp.odomLookup = some otb →
     (process m s inp).1.previous_pose_ = otb ∧
     (process m s inp).1.have_previous_pose_ = true) ∧
    (∀ inps, s.have_previous_pose_ = true →
      (runCycles m s inps).have_previous_pose_ = true) := by
  constructor
  · intro hl hcal hw ho
    obtain ⟨s3, hB⟩ : ∃ s3, runOffsetBlock (afterDrain m s inp) inp = some s3 := by
      rcases hcal with hr | ⟨hr, hwk, hs⟩
      · exact ⟨_, runOffsetBlock_ready m s inp hr⟩
      · obtain ⟨pl, hpl⟩ := Option.isSome_iff_exists.mp hs
        have hready : (afterDrain m s inp).laser_offset_ready_ = false := by
          simp [afterDrain, hr]
        exact ⟨calibrate (afterDrain m s inp) pl, by simp [runOffsetBlock, hready, hwk, hpl]⟩
    have hC := computeOdom_success s3 inp otb hw ho
    by_cases he : s3.particles_.isEmpty = true
    · rw [process_emptySkip m s inp l s3 _ _ hl hB hC (List.isEmpty_iff.mp he)]
      exact ⟨rfl, rfl⟩
    · rw [process_run m s inp l s3 _ _ hl hB hC
        (fun hnil => he (List.isEmpty_iff.mpr hnil))]
      obtain ⟨r1, r2, -⟩ := runStages_fields m _ l (movementOf s3 otb)
      exact ⟨r2, r1⟩
  · intro inps h
    exact runCycles_hpp m inps s h

/-- Claim C8 witness: a cycle on an EMPTY particle set still records the
odometry pose and raises the flag, and the flag survives a cycle whose lookup
throws. -/
theorem claim_C8_witness :
    ((process mShift stEmpty inpOk).1.previous_pose_ = idPose3D ∧
     (process mShift stEmpty inpOk).1.have_previous_pose_ = true) ∧
    (runCycles mShift stTrack [inpOdomThrow]).have_previous_pose_ = true :=
  ⟨(claim_C8 mShift stEmpty inpOk scan0 idPose3D).1 (by decide) (Or.inl (by decide))
     (by decide) (by decide),
   (claim_C8 mShift stTrack inpOk scan0 idPose3D).2 [inpOdomThrow] (by decide)⟩

/-- Claim C7: the mean pose of a weighted particle set is the weighted
circular mean: the translation components are the weight-normalized sums of
the particle translations, and the heading is the angle of the weighted sum of
per-particle unit vectors (cos theta, sin theta) rather than an arithmetic
average of the angles: for two equal-weight particles at headings +179 and
-179 degrees (in radians) the mean heading is exactly pi (that is, 180
degrees), not 0, while the naive arithmetic average of those two angles is 0. -/
theorem claim_C7 :
    (∀ set : List RSample,
        meanX set = (set.map (fun p => p.w * p.x)).sum / rTotalWeight set ∧
        meanY set = (set.map (fun p => p.w * p.y)).sum / rTotalWeight set ∧
        meanHeading set = Complex.arg { re := headingX set, im := headingY set }) ∧
    meanHeading wrapSet = Real.pi ∧
    meanHeading wrapSet ≠ 0 ∧
    (179 * Real.pi / 180 + -(179 * Real.pi / 180)) / 2 = 0 := by
  have hx : headingX wrapSet = 2 * Real.cos (179 * Real.pi / 180) := by
    simp [headingX, wrapSet, Real.cos_neg]
    ring
  have hy : headingY wrapSet = 0 := by
    simp [headingY, wrapSet, Real.sin_neg]
  have hcos : Real.cos (179 * Real.pi / 180) < 0 := by
    apply Real.cos_neg_of_pi_div_two_lt_of_lt
    · nlinarith [Real.pi_pos]
    · nlinarith [Real.pi_pos]
  have harg : meanHeading wrapSet = Real.pi := by
    unfold meanHeading
    rw [hx, hy]
    have hofr : ({ re := 2 * Real.cos (179 * Real.pi / 180), im := 0 } : ℂ)
        = ((2 * Real.cos (179 * Real.pi / 180) : ℝ) : ℂ) := by
      refine Complex.ext ?_ ?_
      · simp only [Complex.ofReal_re]
      · simp only [Complex.ofReal_im]
    rw [hofr, Complex.arg_ofReal_of_neg (by linarith)]
  refine ⟨fun set => ⟨rfl, rfl, rfl⟩, harg, ?_, by ring⟩
  rw [harg]
  exact Real.pi_ne_zero
